import Mathlib

/-!
Verification development for the BIGS report-card rendering and
grade-computation core (`pdf_generator.py`, `report_card_app_final_v7.py`,
`modules/class_teacher.py`, `modules/principal.py`, `modules/reports.py`).

Modelling conventions:
* Python floats are modelled as rationals (`ℚ`); every concrete value the
  claims exercise is exactly representable in binary floating point, so this
  abstraction changes no compared result.
* Python `int(x)` (truncation toward zero) is `pyInt`.
* Nullable values (`None`) are `Option`; Python dict rows become structures.
* Python strings are Lean `String`s; `str.replace(" ", "_")` is a character
  map because the pattern is a single character.
* The file system (existence and loadability of image files) is an explicit
  read-only oracle `fsOk : String → Bool`.
* The PDF byte serialisation performed by the external reportlab library is
  outside this repository and is not modelled; the development covers the
  computed cell contents, statuses, names and drawing operations that the
  repository code itself determines.
-/

namespace BigsReport

/-- Python `int(float(q))`: truncation of a rational toward zero
(`safe_float` never raises on the values modelled here). -/
def pyInt (q : ℚ) : ℤ :=
  if 0 ≤ q then ⌊q⌋ else -⌊-q⌋

/-- Round a rational to the nearest integer, ties to even (the rounding used
by Python fixed-point string formatting; the double rounding through binary
floats is abstracted away, and no value compared by a claim is affected). -/
def rhe (q : ℚ) : ℤ :=
  let fl := ⌊q⌋
  if q - fl < 1/2 then fl
  else if (1 : ℚ)/2 < q - fl then fl + 1
  else if fl % 2 = 0 then fl else fl + 1

/-- Python percentage formatting `f"{q:.1f}%"`: one decimal digit then `%`. -/
def fmtPct1 (q : ℚ) : String :=
  let n := rhe (q * 10)
  let sign := if n < 0 then "-" else ""
  sign ++ toString (n.natAbs / 10) ++ "." ++ toString (n.natAbs % 10) ++ "%"

/-- Python `s.replace(" ", "_")` (single-character pattern, hence a map). -/
def replaceSpaces (s : String) : String :=
  ⟨s.data.map (fun c => if c = ' ' then '_' else c)⟩

/-- Python `s.upper()` (the repository data is ASCII). -/
def pyUpper (s : String) : String :=
  ⟨s.data.map Char.toUpper⟩

/-- Python `s.strip()`. -/
def pyStrip (s : String) : String :=
  ⟨((s.data.dropWhile Char.isWhitespace).reverse.dropWhile Char.isWhitespace).reverse⟩

/-! ## Grade-band lookup — `pdf_generator.lookup_grade` -/

/-- One row of `grade_scale_rows`: the dict keys `Min%`/`Min`, `Max%`/`Max`
are merged into one optional field each (a missing key falls to the coded
default), and the `Grade` / `Score` label columns are kept separately. -/
structure GBand where
  mn : Option ℚ
  mx : Option ℚ
  grade : String
  score : String

/-- Label of a band: `(g.get("Grade", "") or g.get("Score", "")).strip()`. -/
def gbandLabel (g : GBand) : String :=
  pyStrip (if g.grade = "" then g.score else g.grade)

/-- The matching test `mn <= pct <= mx` with coded defaults 0 and 100. -/
def gbandMatches (pct : ℚ) (g : GBand) : Bool :=
  decide (g.mn.getD 0 ≤ pct ∧ pct ≤ g.mx.getD 100)

/-- `pdf_generator.lookup_grade`: first matching band in the given order,
empty string when the list is empty or nothing matches. -/
def lookup_grade (pct : ℚ) (rows : List GBand) : String :=
  match rows.find? (gbandMatches pct) with
  | some g => gbandLabel g
  | none => ""

/-! ## Mark records and aggregation — `create_report_pdf_bytes_v2` -/

/-- One academic row handed to the v2 generator: keys `Subject`, `TE`, `CE`,
`Full_Marks`, `Remarks`.  `TE`/`CE` are `None` for a subject not yet graded;
a missing `Full_Marks` key defaults to 100 in the code. -/
structure MarkRow where
  subject : String
  te : Option ℚ
  ce : Option ℚ
  full : Option ℚ
  remarks : String

/-- The branch condition `te_val is None and ce_val is None`, negated: a row
is graded when at least one score is present. -/
def isGraded (r : MarkRow) : Bool :=
  !(r.te.isNone && r.ce.isNone)

/-- `safe_float(r.get("Full_Marks", 100))`. -/
def fullVal (r : MarkRow) : ℚ :=
  r.full.getD 100

/-- One step of the totals loop (lines 232-248 of `pdf_generator.py`):
an ungraded row is skipped, a graded row adds the un-truncated
`safe_float(te, 0) + safe_float(ce, 0)` and its full marks. -/
def accumStep (acc : ℚ × ℚ) (r : MarkRow) : ℚ × ℚ :=
  if isGraded r then (acc.1 + (r.te.getD 0 + r.ce.getD 0), acc.2 + fullVal r)
  else acc

/-- `(total_scored, total_full)` accumulated over all academic rows. -/
def accumTotals (rows : List MarkRow) : ℚ × ℚ :=
  rows.foldl accumStep (0, 0)

/-- `overall_pct = (total_scored / total_full * 100) if total_full else 0.0`. -/
def overallPct (rows : List MarkRow) : ℚ :=
  let t := accumTotals rows
  if t.2 = 0 then 0 else t.1 / t.2 * 100

/-- `status_text = "PASSED" if overall_pct >= 40 else "FAILED"`. -/
def statusText (rows : List MarkRow) : String :=
  if 40 ≤ overallPct rows then "PASSED" else "FAILED"

/-- The v7 generator status on line 200 of `report_card_app_final_v7.py`:
`"PASSED" if percentage >= 40 else "FAILED"`. -/
def statusV7 (p : ℚ) : String :=
  if 40 ≤ p then "PASSED" else "FAILED"

/-- Displayed per-row scored value: `int(safe_float(te, 0)) + int(safe_float(ce, 0))`. -/
def rowScoredZ (r : MarkRow) : ℤ :=
  pyInt (r.te.getD 0) + pyInt (r.ce.getD 0)

/-- Displayed per-row full marks: `int(safe_float(r.get("Full_Marks", 100)))`. -/
def rowFullZ (r : MarkRow) : ℤ :=
  pyInt (fullVal r)

/-- Displayed per-row percentage: `(scored / full * 100) if full else 0.0`,
computed from the already-truncated scored and full. -/
def rowPct (r : MarkRow) : ℚ :=
  if rowFullZ r = 0 then 0 else (rowScoredZ r : ℚ) / (rowFullZ r : ℚ) * 100

/-- One body row of the Section A table (lines 283-323): placeholders for an
ungraded subject, truncated numbers and a grade lookup otherwise. -/
def renderRow (gs : List GBand) (r : MarkRow) : List String :=
  if isGraded r then
    [r.subject, toString (pyInt (r.te.getD 0)), toString (pyInt (r.ce.getD 0)),
     toString (rowScoredZ r), toString (rowFullZ r), fmtPct1 (rowPct r),
     lookup_grade (rowPct r) gs, r.remarks]
  else
    [r.subject, "-", "-", "-", "-", "-", "-", r.remarks]

/-- The highlighted TOTAL row (lines 326-337): truncated totals and the
overall percentage. -/
def totalRowCells (rows : List MarkRow) : List String :=
  ["TOTAL", "", "",
   toString (pyInt (accumTotals rows).1), toString (pyInt (accumTotals rows).2),
   fmtPct1 (overallPct rows), "", ""]

/-- The upper-cased Section A header row. -/
def academicHeader : List String :=
  ["SUBJECT", "TE", "CE", "SCORED", "FULL MARKS", "PERCENTAGE", "GRADE",
   "TEACHER\x27S REMARKS"]

/-- The complete Section A table data (`subj_table_data`). -/
def academicTable (gs : List GBand) (rows : List MarkRow) : List (List String) :=
  academicHeader :: (rows.map (renderRow gs) ++ [totalRowCells rows])

/-! ## Scoped grade resolver — `report_card_app_final_v7.grade_comment` -/

/-- One merit band as loaded by `load_merit`: `(mn, mx, grade, comment)`. -/
structure MBand where
  mn : ℚ
  mx : ℚ
  grade : String
  comment : String

/-- Dict lookup in the merit table (keys are unique, so first match). -/
def findKey (merit : List (String × List MBand)) (k : String) : Option (List MBand) :=
  (merit.find? (fun p => p.1 == k)).map Prod.snd

/-- In-order scan of a band list: first band with `mn <= score <= mx`. -/
def scanM (bs : List MBand) (score : ℚ) : Option (String × String) :=
  (bs.find? (fun b => decide (b.mn ≤ score ∧ score ≤ b.mx))).map
    (fun b => (b.grade, b.comment))

/-- The trailing half of `grade_comment`: the scan of the `'ALL'` bands and
the final `return "", ""`. -/
def gradeCommentFallback (merit : List (String × List MBand)) (score : ℚ) :
    String × String :=
  match findKey merit "ALL" with
  | some bs => (scanM bs score).getD ("", "")
  | none => ("", "")

/-- `grade_comment(merit, subj, score)` from `report_card_app_final_v7.py`
lines 67-77: scan the bands under the upper-cased subject key; any fall
through (key absent, or present but nothing matched) reaches the `'ALL'`
scan; otherwise empty strings. -/
def grade_comment (merit : List (String × List MBand)) (subj : String) (score : ℚ) :
    String × String :=
  match findKey merit (pyUpper subj) with
  | some bs =>
    match scanM bs score with
    | some gc => gc
    | none => gradeCommentFallback merit score
  | none => gradeCommentFallback merit score

/-! ## Skill remark resolvers -/

/-- The v7 inline mapping `{4:"Outstanding",3:"Accomplished",2:"Progressing",
1:"Beginning"}.get(int(sc), "")` (line 147 of `report_card_app_final_v7.py`). -/
def skillCommentV7 (n : ℤ) : String :=
  if n = 4 then "Outstanding"
  else if n = 3 then "Accomplished"
  else if n = 2 then "Progressing"
  else if n = 1 then "Beginning"
  else ""

/-- `get_skill_remark` from `pdf_generator.create_report_card_bytes`
(lines 570-579): `int(float(score))` then a fixed upper-case table; a raise
inside the `try` (absent score) and any value outside 1-4 yield `""`. -/
def get_skill_remark (score : Option ℚ) : String :=
  match score with
  | none => ""
  | some q =>
    let s := pyInt q
    if s = 1 then "BEGINNING"
    else if s = 2 then "PROGRESSING"
    else if s = 3 then "ACCOMPLISHED"
    else if s = 4 then "OUTSTANDING"
    else ""

/-! ## Signature block — `create_report_pdf_bytes_v2` lines 434-492 -/

/-- One reportlab millimetre in points: `72 / 25.4`. -/
def mmQ : ℚ := 360/127

/-- A4 page width in points (`210 * mm`). -/
def pageWidth : ℚ := 210 * mmQ

def sigBottomMargin : ℚ := 20 * mmQ

def sigYBase : ℚ := sigBottomMargin + 20 * mmQ

def sigWidth : ℚ := 40 * mmQ

def sigHeight : ℚ := 15 * mmQ

def sigSpacing : ℚ := 70 * mmQ

def sigGroupWidth : ℚ := 2 * sigSpacing + sigWidth

def sigGroupStartX : ℚ := pageWidth / 2 - sigGroupWidth / 2

/-- `sig_offsets[label]["x"]`. -/
def sigOffsetX (label : String) : ℚ :=
  if label = "Parent" then 5 else 0

/-- `sig_offsets[label]["y"]` (all zero). -/
def sigOffsetY (_label : String) : ℚ := 0

/-- `label_offsets[label]["x"]`. -/
def labelOffX (label : String) : ℚ :=
  if label = "Class Teacher" then 0 else 4

/-- `label_offsets[label]["y"]` (all -6). -/
def labelOffY (_label : String) : ℚ := -6

def imageGlobalX : ℚ := -9/2

def imageGlobalY : ℚ := 3

def labelGlobalX : ℚ := 10

def labelGlobalY : ℚ := 3

/-- Signature image x position for loop index `i`. -/
def sigImgX (i : ℕ) (label : String) : ℚ :=
  sigGroupStartX + i * sigSpacing + (sigOffsetX label + imageGlobalX) * mmQ

/-- Signature image y position. -/
def sigImgY (label : String) : ℚ :=
  sigYBase + (sigOffsetY label + imageGlobalY) * mmQ

/-- Label text x position (relative to the image position). -/
def sigLabelX (i : ℕ) (label : String) : ℚ :=
  sigImgX i label + (labelOffX label + labelGlobalX) * mmQ

/-- Label text y position (relative to the image position). -/
def sigLabelY (label : String) : ℚ :=
  sigImgY label + (labelOffY label + labelGlobalY) * mmQ

/-- A drawing primitive issued to the canvas. -/
inductive Op where
  | image (path : String) (x y w h : ℚ)
  | text (x y : ℚ) (s : String)
deriving DecidableEq, Repr

/-- One iteration of the signature loop: the image is drawn only when a path
is supplied, the file exists and loads (`fsOk`); the label text is drawn
unconditionally afterwards. -/
def sigItemOps (fsOk : String → Bool) (i : ℕ) (label : String) (sf : Option String) :
    List Op :=
  (match sf with
   | some p =>
     if fsOk p then [Op.image p (sigImgX i label) (sigImgY label) sigWidth sigHeight]
     else []
   | none => []) ++
  [Op.text (sigLabelX i label) (sigLabelY label) label]

/-- The whole signature block: `zip(labels, sig_paths)` in source order. -/
def sigBlockOps (fsOk : String → Bool) (pr ct pa : Option String) : List Op :=
  sigItemOps fsOk 0 "Principal" pr ++
  sigItemOps fsOk 1 "Class Teacher" ct ++
  sigItemOps fsOk 2 "Parent" pa

/-! ## Batch generation — `modules/class_teacher.py` lines 316-392 -/

/-- A student row as used by the batch loops (name and admission number). -/
structure Stu where
  name : String
  adm : String
deriving DecidableEq, Repr

/-- `clean_name = f"{sname}_{adm}".replace(" ", "_")` (class-teacher batch). -/
def ctBaseName (s : Stu) : String :=
  replaceSpaces (s.name ++ "_" ++ s.adm)

/-- The class-teacher generation loop.  `render` returns the PDF bytes or
raises (`Except.error`); nothing catches a raise, so it propagates and the
whole batch is abandoned.  A produced PDF is archived when non-empty
(`if pdf_bytes:`); a JPG conversion failure is swallowed by the inner
`try`/`except` and only omits the JPG entry. -/
def runBatchAux (render : Stu → Except Unit (List ℕ))
    (toJpg : List ℕ → Option (List ℕ)) (fPDF fJPG : Bool)
    (acc : List (String × List ℕ)) : List Stu → Except Unit (List (String × List ℕ))
  | [] => Except.ok acc
  | s :: rest =>
    match render s with
    | Except.error e => Except.error e
    | Except.ok bytes =>
      let acc1 :=
        if bytes.isEmpty then acc
        else
          let withPdf := if fPDF then acc ++ [(ctBaseName s ++ ".pdf", bytes)] else acc
          if fJPG then
            match toJpg bytes with
            | some j => withPdf ++ [(ctBaseName s ++ ".jpg", j)]
            | none => withPdf
          else withPdf
      runBatchAux render toJpg fPDF fJPG acc1 rest

/-- The archive contents produced by the class-teacher batch loop. -/
def runBatch (render : Stu → Except Unit (List ℕ))
    (toJpg : List ℕ → Option (List ℕ)) (fPDF fJPG : Bool) (studs : List Stu) :
    Except Unit (List (String × List ℕ)) :=
  runBatchAux render toJpg fPDF fJPG [] studs

/-- `fname_base = f"{gname}_{sname}".replace(" ", "_")` in the principal
batch (`modules/principal.py` line 139). -/
def principalBaseName (gname sname : String) : String :=
  replaceSpaces (gname ++ "_" ++ sname)

/-- The principal batch PDF entry name `f"{fname_base}.pdf"`. -/
def principalPdfEntry (gname sname : String) : String :=
  principalBaseName gname sname ++ ".pdf"

/-- The reports-module entry name `f"{s_name.replace(' ', '_')}.pdf"`
(`modules/reports.py` line 161). -/
def reportsPdfEntry (sname : String) : String :=
  replaceSpaces sname ++ ".pdf"

/-! ## Definitions written from the words of the spec and claims, for
refinement comparison with the source definitions above. -/

/-- Modelled from the claim text of C7: an archive entry is named
`{StudentName}_{AdmissionNo}` plus extension, with every space character in
the name replaced by an underscore. -/
def specEntryName (studentName admissionNo ext : String) : String :=
  replaceSpaces studentName ++ "_" ++ replaceSpaces admissionNo ++ ext

/-- Modelled from the claim text of C2 as stated: restrict to the bands
filed under the scope; when that filtered set is non-empty scan it in order
and return the first inclusive match or the empty string, falling back to
the global `'ALL'` bands only when the filtered set is empty. -/
def claimResolveC2 (merit : List (String × List MBand)) (subj : String) (score : ℚ) :
    String :=
  let scopedBands := (findKey merit (pyUpper subj)).getD []
  if scopedBands.isEmpty then
    match scanM ((findKey merit "ALL").getD []) score with
    | some gc => gc.1
    | none => ""
  else
    match scanM scopedBands score with
    | some gc => gc.1
    | none => ""

/-- Modelled from the amended wording of C2: scan the scoped bands in order;
whenever that scan produces no match — the scope key being absent included —
rescan the global `'ALL'` bands; return the empty string when both scans
fail.  Bounds are inclusive in both scans. -/
def amendedResolveC2 (merit : List (String × List MBand)) (subj : String) (score : ℚ) :
    String :=
  match scanM ((findKey merit (pyUpper subj)).getD []) score with
  | some gc => gc.1
  | none =>
    match scanM ((findKey merit "ALL").getD []) score with
    | some gc => gc.1
    | none => ""

/-- Modelled from the claim text of C6: the scored value of a graded record
is `(te or 0) + (ce or 0)` with no truncation. -/
def specScoredC6 (r : MarkRow) : ℚ :=
  r.te.getD 0 + r.ce.getD 0

/-- Modelled from the claim text of C6: percentage `scored / full * 100`
when `full > 0`, else 0. -/
def specPctC6 (r : MarkRow) : ℚ :=
  if 0 < fullVal r then specScoredC6 r / fullVal r * 100 else 0

/-! ## Concrete data used by witnesses and counterexamples -/

/-- A fully graded MATHS row (te 45, ce 20, full 100). -/
def exMaths : MarkRow := ⟨"MATHS", some 45, some 20, some 100, ""⟩

/-- An ungraded ART row (both scores absent). -/
def exArt : MarkRow := ⟨"ART", none, none, some 50, ""⟩

/-- A graded row with a fractional term-exam score of 45.5. -/
def exFracMaths : MarkRow := ⟨"MATHS", some (91/2), some 20, some 100, ""⟩

/-- A merit table with one scoped band under MATHS and one global band. -/
def exMerit : List (String × List MBand) :=
  [("MATHS", [⟨50, 100, "A", "good"⟩]), ("ALL", [⟨0, 100, "B", "ok"⟩])]

/-! ## Shared helper lemmas -/

theorem string_data_append (s t : String) : (s ++ t).data = s.data ++ t.data := by
  cases s; cases t; rfl

theorem stringDataEq {s t : String} (h : s.data = t.data) : s = t := by
  cases s; cases t; cases h; rfl

theorem replaceSpaces_append (s t : String) :
    replaceSpaces (s ++ t) = replaceSpaces s ++ replaceSpaces t := by
  apply stringDataEq
  simp [replaceSpaces, string_data_append]

theorem pyInt_intCast (n : ℤ) : pyInt (n : ℚ) = n := by
  unfold pyInt
  by_cases h : 0 ≤ (n : ℚ)
  · simp [h, Int.floor_intCast]
  · rw [if_neg h, ← Int.cast_neg, Int.floor_intCast]; ring

theorem scanM_nil (score : ℚ) : scanM [] score = none := rfl

theorem gradeCommentFallback_fst (merit : List (String × List MBand)) (score : ℚ) :
    (gradeCommentFallback merit score).1
      = match scanM ((findKey merit "ALL").getD []) score with
        | some gc => gc.1
        | none => "" := by
  unfold gradeCommentFallback
  cases hall : findKey merit "ALL" with
  | none => rfl
  | some bs =>
    simp only [Option.getD_some]
    cases hs : scanM bs score <;> simp [hs]

/-! ## Claim theorems -/

/-- C1.  A mark record with both `te_score` and `ce_score` absent is treated
as not graded by the v2 generator: its TE, CE, Scored, Full Marks,
Percentage and Grade cells all render as the placeholder `"-"`, and it
contributes nothing to `total_scored`/`total_full`. -/
theorem c1_ungraded_placeholders (gs : List GBand) (r : MarkRow) (l1 l2 : List MarkRow)
    (h1 : r.te = none) (h2 : r.ce = none) :
    isGraded r = false
    ∧ renderRow gs r = [r.subject, "-", "-", "-", "-", "-", "-", r.remarks]
    ∧ accumTotals (l1 ++ r :: l2) = accumTotals (l1 ++ l2) := by
  have hg : isGraded r = false := by simp [isGraded, h1, h2]
  refine ⟨hg, ?_, ?_⟩
  · simp [renderRow, hg]
  · simp [accumTotals, List.foldl_append, accumStep, hg]

/-- C1 witness: the ungraded ART row next to a graded MATHS row. -/
theorem c1_witness :
    isGraded exArt = false
    ∧ renderRow [] exArt = ["ART", "-", "-", "-", "-", "-", "-", ""]
    ∧ accumTotals [exMaths, exArt] = accumTotals [exMaths] :=
  c1_ungraded_placeholders [] exArt [exMaths] [] rfl rfl

/-- C2 counterexample.  With a non-empty scoped band set that matches
nothing, `grade_comment` still falls back to the global `'ALL'` bands and
returns `"B"`, while the claim as stated (fallback only when the filtered
set is empty) requires the empty string. -/
theorem c2_counterexample :
    (grade_comment exMerit "Maths" 30).1 = "B"
    ∧ claimResolveC2 exMerit "Maths" 30 = ""
    ∧ (grade_comment exMerit "Maths" 30).1 ≠ claimResolveC2 exMerit "Maths" 30 := by
  refine ⟨?_, ?_, ?_⟩ <;> decide

/-- C2 amended.  The scoped resolver scans the bands filed under the
upper-cased subject key in order with inclusive bounds, and whenever that
scan produces no match — whether the key is absent or merely unmatched — it
rescans the global `'ALL'` bands, returning the empty string when both scans
fail. -/
theorem c2_amended (merit : List (String × List MBand)) (subj : String) (score : ℚ) :
    (grade_comment merit subj score).1 = amendedResolveC2 merit subj score := by
  unfold grade_comment amendedResolveC2
  cases hk : findKey merit (pyUpper subj) with
  | none =>
    simp only [Option.getD_none, scanM_nil]
    exact gradeCommentFallback_fst merit score
  | some bs =>
    simp only [Option.getD_some]
    cases hs : scanM bs score with
    | some gc => simp [hs]
    | none =>
      simp only [hs]
      exact gradeCommentFallback_fst merit score

/-- C3.  Both generators render the status as `"PASSED"` exactly when the
overall percentage is at least 40 (the boundary 40.0 included) and as
`"FAILED"` otherwise. -/
theorem c3_status_threshold :
    (∀ rows : List MarkRow, statusText rows = "PASSED" ↔ 40 ≤ overallPct rows)
    ∧ (∀ rows : List MarkRow, statusText rows = "FAILED" ↔ ¬ 40 ≤ overallPct rows)
    ∧ (∀ p : ℚ, statusV7 p = "PASSED" ↔ 40 ≤ p)
    ∧ statusV7 40 = "PASSED" := by
  refine ⟨fun rows => ?_, fun rows => ?_, fun p => ?_, by norm_num [statusV7]⟩
  · unfold statusText; split <;> simp_all
  · unfold statusText; split <;> simp_all
  · unfold statusV7; split <;> simp_all

/-- C4 counterexample.  The v2 resolver `get_skill_remark` returns the
upper-cased `"BEGINNING"` for score 1, not exactly `"Beginning"`. -/
theorem c4_counterexample :
    get_skill_remark (some 1) = "BEGINNING"
    ∧ get_skill_remark (some 1) ≠ "Beginning" := by
  have h : get_skill_remark (some 1) = "BEGINNING" := by
    norm_num [get_skill_remark, pyInt]
  exact ⟨h, by rw [h]; decide⟩

/-- C4 amended.  For every integer score the v2 resolver returns the
upper-cased version of the v7 title-case mapping: `"BEGINNING"` for 1 up to
`"OUTSTANDING"` for 4, and both resolvers return the empty string, without
raising, outside `[1,4]` or for an absent score. -/
theorem c4_amended :
    (∀ n : ℤ, get_skill_remark (some (n : ℚ)) = pyUpper (skillCommentV7 n))
    ∧ skillCommentV7 1 = "Beginning" ∧ skillCommentV7 2 = "Progressing"
    ∧ skillCommentV7 3 = "Accomplished" ∧ skillCommentV7 4 = "Outstanding"
    ∧ (∀ n : ℤ, n < 1 ∨ 4 < n →
        skillCommentV7 n = "" ∧ get_skill_remark (some (n : ℚ)) = "")
    ∧ get_skill_remark none = "" := by
  refine ⟨fun n => ?_, rfl, rfl, rfl, rfl, fun n h => ?_, rfl⟩
  · unfold get_skill_remark skillCommentV7
    dsimp only
    simp only [pyInt_intCast]
    by_cases h1 : n = 1
    · subst h1; decide
    by_cases h2 : n = 2
    · subst h2; decide
    by_cases h3 : n = 3
    · subst h3; decide
    by_cases h4 : n = 4
    · subst h4; decide
    simp only [h1, h2, h3, h4, if_false]
    decide
  · have h1 : n ≠ 1 := by omega
    have h2 : n ≠ 2 := by omega
    have h3 : n ≠ 3 := by omega
    have h4 : n ≠ 4 := by omega
    refine ⟨by simp [skillCommentV7, h1, h2, h3, h4], ?_⟩
    unfold get_skill_remark
    dsimp only
    simp only [pyInt_intCast]
    simp [h1, h2, h3, h4]

/-- C4 witness: score 5 is outside the table and yields the empty string. -/
theorem c4_witness :
    skillCommentV7 5 = "" ∧ get_skill_remark (some ((5 : ℤ) : ℚ)) = "" :=
  c4_amended.2.2.2.2.2.1 5 (Or.inr (by norm_num))

/-! ## Batch scenario data (C5) -/

def exStu1 : Stu := ⟨"Aliya Khan", "1"⟩

def exStu2 : Stu := ⟨"Bilal Khan", "2"⟩

def exStu3 : Stu := ⟨"Chand Khan", "3"⟩

def exThreeStudents : List Stu := [exStu1, exStu2, exStu3]

/-- A render that raises for the second student and succeeds otherwise. -/
def renderFailSecond : Stu → Except Unit (List ℕ) :=
  fun s => if s.adm = "2" then Except.error () else Except.ok [1]

/-- A render that succeeds for everyone, marking the second student's bytes. -/
def renderOkJpgDep : Stu → Except Unit (List ℕ) :=
  fun s => Except.ok [if s.adm = "2" then 2 else 1]

/-- A JPG conversion that raises exactly on the second student's bytes. -/
def toJpgFail2 : List ℕ → Option (List ℕ) :=
  fun b => if b = [2] then none else some (0 :: b)

theorem runBatchAux_isOk (render : Stu → Except Unit (List ℕ))
    (toJpg : List ℕ → Option (List ℕ)) (fPDF fJPG : Bool) (studs : List Stu) :
    ∀ acc, (runBatchAux render toJpg fPDF fJPG acc studs).isOk
      = studs.all (fun s => (render s).isOk) := by
  induction studs with
  | nil => intro acc; rfl
  | cons s rest ih =>
    intro acc
    simp only [runBatchAux, List.all_cons]
    cases hr : render s with
    | error e => simp [Except.isOk, Except.toBool]
    | ok bytes =>
      rw [ih]
      simp [Except.isOk, Except.toBool]

/-- C5 counterexample.  Three students where the second student's render
raises: the exception propagates out of the generation loop, so the whole
batch is abandoned and no archive at all is produced — not two successes, a
recorded failure and a two-entry archive as the claim states. -/
theorem c5_counterexample :
    runBatch renderFailSecond (fun _ => none) true false exThreeStudents
      = Except.error () := by
  rfl

/-- C5 amended.  The class-teacher batch survives and archives students
exactly when every render returns: the batch result is a success if and only
if no student's render raises (a single raise aborts the whole batch, and no
failure record exists).  Only a JPG-conversion failure is swallowed
per-student: with every render succeeding and the second student's JPG
conversion raising, the batch still succeeds and merely omits that one JPG
entry. -/
theorem c5_amended :
    (∀ (render : Stu → Except Unit (List ℕ)) (toJpg : List ℕ → Option (List ℕ))
        (fPDF fJPG : Bool) (studs : List Stu),
      (runBatch render toJpg fPDF fJPG studs).isOk
        = studs.all (fun s => (render s).isOk))
    ∧ runBatch renderOkJpgDep toJpgFail2 true true exThreeStudents
        = Except.ok [("Aliya_Khan_1.pdf", [1]), ("Aliya_Khan_1.jpg", [0, 1]),
                     ("Bilal_Khan_2.pdf", [2]),
                     ("Chand_Khan_3.pdf", [1]), ("Chand_Khan_3.jpg", [0, 1])] := by
  refine ⟨fun render toJpg fPDF fJPG studs => ?_, by rfl⟩
  exact runBatchAux_isOk render toJpg fPDF fJPG studs []

/-- C6 counterexample.  For a graded record with the fractional score
te = 45.5, ce = 20, full = 100, the rendered Scored cell is `"65"`
(components truncated before the sum), while the claim's formula
`(te or 0) + (ce or 0)` gives 65.5. -/
theorem c6_counterexample :
    (renderRow [] exFracMaths)[3]? = some "65"
    ∧ specScoredC6 exFracMaths = 131/2
    ∧ ((65 : ℚ) ≠ 131/2) := by
  refine ⟨?_, ?_, by norm_num⟩
  · have h5 : pyInt (91/2 : ℚ) = 45 := by norm_num [pyInt]
    have h20 : pyInt (20 : ℚ) = 20 := by norm_num [pyInt]
    simp [renderRow, exFracMaths, isGraded, rowScoredZ, h5, h20]
    rfl
  · norm_num [specScoredC6, exFracMaths]

/-- C6 amended.  For every graded record the rendered Scored cell is
`int(te or 0) + int(ce or 0)` with each present component truncated toward
zero, the rendered Percentage cell is that truncated scored over the
truncated full times 100 when the truncated full is nonzero (the code tests
truthiness, not positivity) and 0 otherwise, while the contribution to the
running totals is the un-truncated `(te or 0) + (ce or 0)` and full marks. -/
theorem c6_amended (gs : List GBand) (r : MarkRow) (h : isGraded r = true) :
    (renderRow gs r)[3]? = some (toString (pyInt (r.te.getD 0) + pyInt (r.ce.getD 0)))
    ∧ (renderRow gs r)[5]? = some (fmtPct1 (if pyInt (fullVal r) = 0 then 0
        else ((pyInt (r.te.getD 0) + pyInt (r.ce.getD 0) : ℤ) : ℚ)
          / ((pyInt (fullVal r) : ℤ) : ℚ) * 100))
    ∧ ∀ acc : ℚ × ℚ,
        accumStep acc r = (acc.1 + (r.te.getD 0 + r.ce.getD 0), acc.2 + fullVal r) := by
  refine ⟨?_, ?_, fun acc => by simp [accumStep, h]⟩
  · simp [renderRow, h, rowScoredZ]
  · simp [renderRow, h, rowPct, rowScoredZ, rowFullZ]

/-- C6 witness: the amended statement evaluated on the fractional MATHS row. -/
theorem c6_witness :
    isGraded exFracMaths = true
    ∧ (renderRow [] exFracMaths)[3]? = some "65"
    ∧ accumStep (0, 0) exFracMaths = (131/2, 100) := by
  have h := c6_amended [] exFracMaths rfl
  refine ⟨rfl, ?_, ?_⟩
  · rw [h.1]
    have h5 : pyInt (91/2 : ℚ) = 45 := by norm_num [pyInt]
    have h20 : pyInt (20 : ℚ) = 20 := by norm_num [pyInt]
    simp [exFracMaths, h5, h20]
    rfl
  · rw [h.2.2 (0, 0)]
    norm_num [exFracMaths, fullVal]

/-- C7 counterexample.  For student "Aliya Khan" with admission number
"B5A1" in grade "Grade 5", the principal batch names the archive entry
`Grade_5_Aliya_Khan.pdf` and the reports module names it `Aliya_Khan.pdf`;
neither equals the claimed `Aliya_Khan_B5A1.pdf`. -/
theorem c7_counterexample :
    principalPdfEntry "Grade 5" "Aliya Khan" = "Grade_5_Aliya_Khan.pdf"
    ∧ reportsPdfEntry "Aliya Khan" = "Aliya_Khan.pdf"
    ∧ specEntryName "Aliya Khan" "B5A1" ".pdf" = "Aliya_Khan_B5A1.pdf"
    ∧ principalPdfEntry "Grade 5" "Aliya Khan" ≠ specEntryName "Aliya Khan" "B5A1" ".pdf"
    ∧ reportsPdfEntry "Aliya Khan" ≠ specEntryName "Aliya Khan" "B5A1" ".pdf" := by
  refine ⟨rfl, rfl, rfl, ?_, ?_⟩ <;> decide

/-- C7 amended.  Only the class-teacher batch names archive entries
`{StudentName}_{AdmissionNo}.pdf` / `.jpg` with spaces replaced by
underscores; this holds for every student name and admission number. -/
theorem c7_amended (s : Stu) :
    ctBaseName s ++ ".pdf" = specEntryName s.name s.adm ".pdf"
    ∧ ctBaseName s ++ ".jpg" = specEntryName s.name s.adm ".jpg" := by
  have key : ctBaseName s = replaceSpaces s.name ++ "_" ++ replaceSpaces s.adm := by
    unfold ctBaseName
    rw [replaceSpaces_append, replaceSpaces_append]
    rfl
  unfold specEntryName
  rw [key]
  exact ⟨rfl, rfl⟩

/-- Projection selecting the label-text draw operations. -/
def opLabel? : Op → Option (ℚ × ℚ × String) :=
  fun o => match o with
  | Op.text x y s => some (x, y, s)
  | _ => none

theorem sigItemOps_filterMap (fsOk : String → Bool) (i : ℕ) (label : String)
    (sf : Option String) :
    (sigItemOps fsOk i label sf).filterMap opLabel?
      = [(sigLabelX i label, sigLabelY label, label)] := by
  cases sf with
  | none => rfl
  | some p => cases h : fsOk p <;> simp [sigItemOps, h, opLabel?]

/-- C9.  The three signature labels "Principal", "Class Teacher" and
"Parent" are drawn at their computed positions for every combination of
present, absent or unloadable signature images; an unresolvable signature
suppresses only its image operation, never the label. -/
theorem c9_labels_always_drawn :
    (∀ (fsOk : String → Bool) (pr ct pa : Option String),
      (sigBlockOps fsOk pr ct pa).filterMap opLabel?
        = [(sigLabelX 0 "Principal", sigLabelY "Principal", "Principal"),
           (sigLabelX 1 "Class Teacher", sigLabelY "Class Teacher", "Class Teacher"),
           (sigLabelX 2 "Parent", sigLabelY "Parent", "Parent")])
    ∧ (∀ (fsOk : String → Bool) (i : ℕ) (label : String),
        sigItemOps fsOk i label none
          = [Op.text (sigLabelX i label) (sigLabelY label) label])
    ∧ (∀ (fsOk : String → Bool) (i : ℕ) (label p : String), fsOk p = false →
        sigItemOps fsOk i label (some p)
          = [Op.text (sigLabelX i label) (sigLabelY label) label]) := by
  refine ⟨fun fsOk pr ct pa => ?_, fun fsOk i label => rfl, fun fsOk i label p h => ?_⟩
  · simp [sigBlockOps, List.filterMap_append, sigItemOps_filterMap]
  · simp [sigItemOps, h]

/-- C9 witness: an unloadable parent signature still yields the label. -/
theorem c9_witness :
    sigItemOps (fun _ => false) 2 "Parent" (some "parent_sign.png")
      = [Op.text (sigLabelX 2 "Parent") (sigLabelY "Parent") "Parent"] :=
  c9_labels_always_drawn.2.2 (fun _ => false) 2 "Parent" "parent_sign.png" rfl

/-! ## C10 data: two rows with fractional half-mark scores. -/

def fracRow1 : MarkRow := ⟨"ENGLISH", some (1/2), some 0, some 100, ""⟩

def fracRow2 : MarkRow := ⟨"HINDI", some (1/2), some 0, some 100, ""⟩

def exFracRows : List MarkRow := [fracRow1, fracRow2]

theorem renderRow_scored_cell (gs : List GBand) (r : MarkRow) (h : isGraded r = true) :
    (renderRow gs r)[3]? = some (toString (rowScoredZ r)) := by
  simp [renderRow, h]

/-- C10.  With fractional scores the TOTAL row's Scored value need not be
the sum of the displayed per-subject Scored values: each body row truncates
te and ce before summing (two rows of 0.5 each display "0"), while the TOTAL
row accumulates the un-truncated values and truncates only the final sum
(displaying "1"). -/
theorem c10_truncation_divergence :
    (totalRowCells exFracRows)[3]? = some "1"
    ∧ exFracRows.map (fun r => (renderRow [] r)[3]?) = [some "0", some "0"]
    ∧ pyInt (accumTotals exFracRows).1 = 1
    ∧ (exFracRows.map rowScoredZ).sum = 0
    ∧ pyInt (accumTotals exFracRows).1 ≠ (exFracRows.map rowScoredZ).sum := by
  have htot : (accumTotals exFracRows).1 = 1 := by
    norm_num [accumTotals, exFracRows, fracRow1, fracRow2, accumStep, isGraded, fullVal]
  have h1 : pyInt (1 : ℚ) = 1 := by norm_num [pyInt]
  have hr1 : rowScoredZ fracRow1 = 0 := by norm_num [rowScoredZ, fracRow1, pyInt]
  have hr2 : rowScoredZ fracRow2 = 0 := by norm_num [rowScoredZ, fracRow2, pyInt]
  refine ⟨?_, ?_, ?_, ?_, ?_⟩
  · simp [totalRowCells, htot, h1]
    rfl
  · simp only [exFracRows, List.map_cons, List.map_nil]
    rw [renderRow_scored_cell [] fracRow1 rfl, renderRow_scored_cell [] fracRow2 rfl, hr1, hr2]
    rfl
  · rw [htot]; exact h1
  · simp [exFracRows, hr1, hr2]
  · rw [htot, h1]
    simp [exFracRows, hr1, hr2]

end BigsReport
